import Mathlib

/-!
# EventHub API client session layer — shallow embedding

Shallow embedding of the `APIClient` class (src/frontend/js/dashboard.js) and
the `API_CONFIG` object (src/frontend/js/auth.js) of the EventHub frontend.

Modelling conventions:

* `localStorage` is an association list of string keys and string values
  (`Storage`); `getItem`, `setItem` and `removeItem` mirror the Web Storage
  API (one value per key).
* The network is an environment `Env : Nat → FetchEvent`: the n-th `fetch`
  performed by a run settles according to `env n`.  A `FetchEvent` carries the
  time (in ms) until the fetch settles and its result: either an HTTP
  response (status plus a body that may or may not parse as JSON) or a
  rejection carrying a JS error `name` and message.
* The `AbortController` / `setTimeout` wiring of `APIClient.request` is
  modelled in `doFetch`: if the event's settle time is at least
  `API_CONFIG.TIMEOUT`, the armed timer fires first, `controller.abort()`
  cancels the in-flight fetch, and the fetch rejects with an `AbortError`;
  otherwise the fetch settles first.  Each `doFetch` records the outgoing
  request in the `sent` log and the final state of the timer armed for it in
  the `timers` log (`fired` = the timer callback ran, i.e. the abort was
  executed; `cleared` = `clearTimeout` was called before it could fire;
  `fired = false ∧ cleared = false` means the timer was still pending when
  the call completed).
* Response bodies are restricted to the JSON fields the client ever reads
  (`access`, `refresh`, `detail`, `error`); `response.json()` failing to
  parse is `body = none`, in which case the code substitutes `{}`
  (`emptyBody`).  `JSON.stringify` of a request payload is modelled as the
  list of its fields.
* `async`/`await` recursion (`request` ↔ `refreshToken`) is embedded with
  explicit fuel: a result of `none` means the run did not terminate within
  the given fuel bound, for any bound.
* JS truthiness on nullable strings (`if (token)`, `a || b`) is modelled by
  `truthy` / `jsOr`: absent and empty strings are falsy.
-/

namespace EventHub

/-- `localStorage`: an association list, at most one binding per key is ever
observable (`getItem` returns the first binding). -/
abbrev Storage := List (String × String)

/-- `localStorage.getItem(k)`: the stored value, or `none` (JS `null`). -/
def getItem (s : Storage) (k : String) : Option String :=
  (s.find? (fun p => p.1 == k)).map (fun p => p.2)

/-- `localStorage.removeItem(k)`. -/
def removeItem (s : Storage) (k : String) : Storage :=
  s.filter (fun p => p.1 != k)

/-- `localStorage.setItem(k, v)`: overwrites any previous binding of `k`. -/
def setItem (s : Storage) (k v : String) : Storage :=
  (k, v) :: removeItem s k

/-- JS truthiness of a nullable string: `null`/absent and `""` are falsy. -/
def truthy : Option String → Bool
  | none => false
  | some s => s != ""

/-- JS `a || b` on nullable strings (used by `data.detail || data.error || …`). -/
def jsOr (a b : Option String) : Option String :=
  if truthy a then a else b

/-- JS string coercion when a possibly-`undefined` value is stored with
`localStorage.setItem` (an `undefined` value is stored as `"undefined"`). -/
def jsString : Option String → String
  | none => "undefined"
  | some s => s

/-- The JSON fields of a response body that the client ever reads.  A field
that is absent in the body is `none`. -/
structure JsonBody where
  access : Option String := none
  refresh : Option String := none
  detail : Option String := none
  error : Option String := none
deriving Repr, DecidableEq

/-- The `{}` substituted when `response.json()` fails to parse. -/
def emptyBody : JsonBody := {}

/-- How a `fetch` settles when it is not aborted first. -/
inductive FetchResult where
  /-- The server answered: HTTP status and body (`none` = body is not JSON). -/
  | response (status : Nat) (body : Option JsonBody)
  /-- The fetch promise rejected (network failure …): JS error name, message. -/
  | networkError (name msg : String)
deriving Repr, DecidableEq

/-- One scripted network exchange: how long until the fetch settles (ms) and
how it settles. -/
structure FetchEvent where
  duration : Nat
  result : FetchResult
deriving Repr, DecidableEq

/-- The network environment: the behaviour of the n-th fetch issued. -/
abbrev Env := Nat → FetchEvent

/-- A record of one outgoing HTTP request, as passed to `fetch`. -/
structure SentRequest where
  url : String
  method : String
  headers : List (String × String)
  body : Option (List (String × String))
deriving Repr, DecidableEq

/-- Final state, at the moment the `request` call settles, of one timeout
timer armed by `request`. -/
structure TimerRec where
  /-- The timer callback ran: `controller.abort()` was executed. -/
  fired : Bool
  /-- `clearTimeout` was called on the timer before it fired. -/
  cleared : Bool
deriving Repr, DecidableEq

/-- The `options` argument of `APIClient.request`.  `auth`/`retry` are
`none` when the caller did not pass them (JS `undefined`). -/
structure Options where
  method : String := "GET"
  body : Option (List (String × String)) := none
  headers : List (String × String) := []
  auth : Option Bool := none
  retry : Option Bool := none
deriving Repr, DecidableEq

/-- The observable world state threaded through a run: `localStorage`, the
number of fetches issued so far, the log of outgoing requests, the log of
timeout timers, and the value assigned to `window.location.href` (by
`logout`), if any. -/
structure Ctx where
  storage : Storage
  counter : Nat
  sent : List SentRequest
  timers : List TimerRec
  redirect : Option String
deriving Repr, DecidableEq

/-- An initial context over a given `localStorage` content. -/
def ctx0 (s : Storage) : Ctx :=
  { storage := s, counter := 0, sent := [], timers := [], redirect := none }

namespace API_CONFIG

/-- `API_CONFIG.BASE_URL`. -/
def BASE_URL : String := "http://localhost:8000/api"

/-- `API_CONFIG.TIMEOUT` (ms). -/
def TIMEOUT : Nat := 30000

namespace ENDPOINTS

def LOGIN : String := "/token/"
def REFRESH : String := "/token/refresh/"
def REGISTER : String := "/auth/register/"
def EVENTS : String := "/events/events/"
def ME : String := "/auth/me/"
def HEALTH : String := "/health/"

end ENDPOINTS

/-- `API_CONFIG.getHeaders(includeAuth)`: JSON content type, plus
`Authorization: Bearer <access_token>` when `includeAuth` and a (truthy)
access token is stored. -/
def getHeaders (s : Storage) (includeAuth : Bool) : List (String × String) :=
  if includeAuth then
    match getItem s "access_token" with
    | some token =>
        if token = "" then [("Content-Type", "application/json")]
        else [("Content-Type", "application/json"), ("Authorization", "Bearer " ++ token)]
    | none => [("Content-Type", "application/json")]
  else [("Content-Type", "application/json")]

end API_CONFIG

/-- Insert-or-overwrite one header, keeping the position of an existing key
(JS object spread semantics). -/
def setHeader : List (String × String) → String → String → List (String × String)
  | [], k, v => [(k, v)]
  | (k', v') :: t, k, v => if k' = k then (k, v) :: t else (k', v') :: setHeader t k v

/-- `{...base, ...extra}` on header objects: later keys win. -/
def mergeHeaders (base extra : List (String × String)) : List (String × String) :=
  extra.foldl (fun acc p => setHeader acc p.1 p.2) base

/-- Header lookup (first binding of the key, like a JS property read on the
merged object). -/
def headerGet (hs : List (String × String)) (k : String) : Option String :=
  getItem hs k

/-- The headers of the outgoing request built by `APIClient.request`:
`{...API_CONFIG.getHeaders(options.auth !== false), ...options.headers}`. -/
def buildHeaders (s : Storage) (opts : Options) : List (String × String) :=
  mergeHeaders (API_CONFIG.getHeaders s (opts.auth != some false)) opts.headers

/-- How the `await fetch(...)` inside `request`'s `try` block settles, as
observed by the code after it (the `clearTimeout` directly after the `await`
is folded into the bookkeeping). -/
inductive Settled where
  /-- The fetch resolved with a response; `clearTimeout` ran. -/
  | ok (status : Nat) (body : Option JsonBody)
  /-- The fetch rejected (`name` is the JS error name). -/
  | err (name msg : String)
deriving Repr, DecidableEq

/-- One `fetch` with the timeout timer of `APIClient.request` armed around
it: logs the outgoing request; if the event's settle time reaches
`API_CONFIG.TIMEOUT`, the timer fires, aborts the controller and the fetch
rejects with an `AbortError` (the timer was never cleared); otherwise the
fetch settles first, and `clearTimeout` runs exactly when the fetch
resolved — when it rejected, the code skips `clearTimeout`, so the timer is
left pending (`fired = false`, `cleared = false`). -/
def doFetch (env : Env) (c : Ctx) (url method : String)
    (body : Option (List (String × String))) (headers : List (String × String)) :
    Ctx × Settled :=
  if API_CONFIG.TIMEOUT ≤ (env c.counter).duration then
    ({ c with counter := c.counter + 1,
              sent := c.sent ++ [⟨url, method, headers, body⟩],
              timers := c.timers ++ [⟨true, false⟩] },
     .err "AbortError" "The operation was aborted")
  else
    match (env c.counter).result with
    | .response s b =>
        ({ c with counter := c.counter + 1,
                  sent := c.sent ++ [⟨url, method, headers, body⟩],
                  timers := c.timers ++ [⟨false, true⟩] },
         .ok s b)
    | .networkError name msg =>
        ({ c with counter := c.counter + 1,
                  sent := c.sent ++ [⟨url, method, headers, body⟩],
                  timers := c.timers ++ [⟨false, false⟩] },
         .err name msg)

/-- `data.detail || data.error || ` "Error <status>" (JS `||`: an absent or
empty field falls through). -/
def errMessage (data : JsonBody) (status : Nat) : String :=
  (jsOr data.detail (jsOr data.error (some ("Error " ++ toString status)))).getD ""

/-- The tail of `request` once no (further) retry happens: parse the body
(`{}` on parse failure), resolve with it when `response.ok`
(status 200–299), otherwise throw `data.detail || data.error || Error <status>`. -/
def finishResp (c : Ctx) (status : Nat) (body : Option JsonBody) :
    Ctx × Except String JsonBody :=
  if 200 ≤ status ∧ status ≤ 299 then (c, .ok (body.getD emptyBody))
  else (c, .error (errMessage (body.getD emptyBody) status))

/-- `APIClient.logout()`: remove both tokens, redirect to the login page. -/
def logoutCtx (c : Ctx) : Ctx :=
  { c with storage := removeItem (removeItem c.storage "access_token") "refresh_token",
           redirect := some "/pages/login.html" }

/-- `APIClient.isAuthenticated()`: `!!localStorage.getItem('access_token')`. -/
def isAuthenticated (s : Storage) : Bool :=
  truthy (getItem s "access_token")

/-- Body of `APIClient.refreshToken()`, abstracted over the `request`
operation it uses for its POST (at one step less fuel): read the stored
refresh token (falsy ⇒ `return false`, storage untouched); POST it to the
refresh endpoint; on a truthy `access` in the reply, store it and return
`true`; on a falsy/absent `access`, return `false`; if the POST throws,
`this.logout()` and return `false`. -/
def refreshTokenAux
    (req : String → Options → Ctx → Option (Ctx × Except String JsonBody))
    (c : Ctx) : Option (Ctx × Bool) :=
  match getItem c.storage "refresh_token" with
  | none => some (c, false)
  | some refresh =>
    if refresh = "" then some (c, false)
    else
      match req API_CONFIG.ENDPOINTS.REFRESH
          { method := "POST", body := some [("refresh", refresh)] } c with
      | none => none
      | some (c1, .ok data) =>
          match data.access with
          | some access =>
              if access = "" then some (c1, false)
              else some ({ c1 with storage := setItem c1.storage "access_token" access }, true)
          | none => some (c1, false)
      | some (c1, .error _) => some (logoutCtx c1, false)

/-- `APIClient.request(endpoint, options)`, with fuel bounding the
`request` ↔ `refreshToken` recursion (`none` = still running when the fuel
ran out).  One fetch guarded by the timeout timer; on a rejected fetch the
`catch` block maps an `AbortError` to the timeout message and rethrows
anything else; on a 401 with `options.retry !== false` it runs
`refreshToken` and, if that succeeded, re-issues the request with
`retry: false`; otherwise it parses the body and resolves/throws. -/
def requestF : Nat → Env → String → Options → Ctx → Option (Ctx × Except String JsonBody)
  | 0, _, _, _, _ => none
  | fuel + 1, env, endpoint, opts, c =>
    match doFetch env c (API_CONFIG.BASE_URL ++ endpoint) opts.method opts.body
        (buildHeaders c.storage opts) with
    | (c1, .err name msg) =>
        some (c1, .error (if name = "AbortError" then "La petición tardó demasiado tiempo" else msg))
    | (c1, .ok status body) =>
        if status == 401 && (opts.retry != some false) then
          match refreshTokenAux (requestF fuel env) c1 with
          | none => none
          | some (c2, true) => requestF fuel env endpoint { opts with retry := some false } c2
          | some (c2, false) => some (finishResp c2 status body)
        else some (finishResp c1 status body)

/-- `APIClient.refreshToken()`. -/
def refreshTokenF (fuel : Nat) (env : Env) (c : Ctx) : Option (Ctx × Bool) :=
  match fuel with
  | 0 => none
  | f + 1 => refreshTokenAux (requestF f env) c

/-- `URLSearchParams(params).toString()` (percent-encoding is not modelled;
no claim depends on it). -/
def queryString (params : List (String × String)) : String :=
  String.intercalate "&" (params.map (fun p => p.1 ++ "=" ++ p.2))

/-- `APIClient.get(endpoint, params)`. -/
def getF (fuel : Nat) (env : Env) (endpoint : String) (params : List (String × String))
    (c : Ctx) : Option (Ctx × Except String JsonBody) :=
  let qs := queryString params
  let url := if qs = "" then endpoint else endpoint ++ "?" ++ qs
  requestF fuel env url { method := "GET" } c

/-- `APIClient.post(endpoint, data)`. -/
def postF (fuel : Nat) (env : Env) (endpoint : String) (data : List (String × String))
    (c : Ctx) : Option (Ctx × Except String JsonBody) :=
  requestF fuel env endpoint { method := "POST", body := some data } c

/-- The value `APIClient.login` resolves with. -/
structure LoginResult where
  success : Bool
  error : Option String := none
  data : Option JsonBody := none
deriving Repr, DecidableEq

/-- `APIClient.login(username, password)`: POST the credentials; on a truthy
`access` in the reply store both tokens and resolve `{success: true, data}`;
on a missing token resolve `{success: false, error: 'No se recibió token'}`;
on a thrown error resolve `{success: false, error: error.message}`. -/
def loginF (fuel : Nat) (env : Env) (username password : String) (c : Ctx) :
    Option (Ctx × LoginResult) :=
  match postF fuel env API_CONFIG.ENDPOINTS.LOGIN
      [("username", username), ("password", password)] c with
  | none => none
  | some (c1, .ok data) =>
      if truthy data.access then
        some ({ c1 with storage := setItem (setItem c1.storage "access_token" (jsString data.access)) "refresh_token" (jsString data.refresh) },
              { success := true, data := some data })
      else some (c1, { success := false, error := some "No se recibió token" })
  | some (c1, .error m) => some (c1, { success := false, error := some m })

/-- `APIClient.getEvents(params)`. -/
def getEventsF (fuel : Nat) (env : Env) (params : List (String × String)) (c : Ctx) :
    Option (Ctx × Except String JsonBody) :=
  getF fuel env API_CONFIG.ENDPOINTS.EVENTS params c

/-- `APIClient.getCurrentUser()`: the decoded payload, or `null` when the
underlying GET throws (the error is only logged). -/
def getCurrentUserF (fuel : Nat) (env : Env) (c : Ctx) : Option (Ctx × Option JsonBody) :=
  match getF fuel env API_CONFIG.ENDPOINTS.ME [] c with
  | none => none
  | some (c1, .ok d) => some (c1, some d)
  | some (c1, .error _) => some (c1, none)

/-- The value `APIClient.healthCheck` resolves with: the decoded payload, or
the `{status: 'error', message}` envelope built in its `catch`. -/
inductive HealthResult where
  | payload (d : JsonBody)
  | errorStatus (message : String)
deriving Repr, DecidableEq

/-- `APIClient.healthCheck()`. -/
def healthCheckF (fuel : Nat) (env : Env) (c : Ctx) : Option (Ctx × HealthResult) :=
  match getF fuel env API_CONFIG.ENDPOINTS.HEALTH [] c with
  | none => none
  | some (c1, .ok d) => some (c1, .payload d)
  | some (c1, .error m) => some (c1, .errorStatus m)

/-! ## Concrete environments used by witnesses and counterexamples -/

/-- Every fetch rejects at once with a browser network error. -/
def envNetError : Env := fun _ => ⟨0, .networkError "TypeError" "Failed to fetch"⟩

/-- Every fetch would only settle at the timeout bound (a server that never
answers in time). -/
def envSlowServer : Env := fun _ => ⟨30000, .response 200 none⟩

/-- Every request is answered 404 with body `{"detail": "", "error": "boom"}`. -/
def bodyDetailEmpty : JsonBody := { detail := some "", error := some "boom" }

def env404DetailEmpty : Env := fun _ => ⟨0, .response 404 (some bodyDetailEmpty)⟩

/-- Every request is answered 503 with body `{"error": "service down"}`. -/
def bodyErrOnly : JsonBody := { error := some "service down" }

def env503ErrOnly : Env := fun _ => ⟨0, .response 503 (some bodyErrOnly)⟩

/-- Every request is answered 200 with a body that is not valid JSON. -/
def env200BadJson : Env := fun _ => ⟨0, .response 200 none⟩

/-- Every request — including the token-refresh POST — is answered 401. -/
def envAll401 : Env := fun _ => ⟨0, .response 401 (some emptyBody)⟩

/-- Every request is answered 400 with an empty JSON body. -/
def envAll400 : Env := fun _ => ⟨0, .response 400 (some emptyBody)⟩

/-- Every request is answered 500 with an empty JSON body. -/
def envAll500 : Env := fun _ => ⟨0, .response 500 (some emptyBody)⟩

/-- The login endpoint answers 200 with fresh tokens. -/
def bodyLoginOk : JsonBody := { access := some "A1", refresh := some "R1" }

def envLoginOk : Env := fun _ => ⟨0, .response 200 (some bodyLoginOk)⟩

/-- The context reached by the successful login in the C9 witness run. -/
def c9WitnessCtx : Ctx :=
  { storage := [("refresh_token", "R1"), ("access_token", "A1")],
    counter := 1,
    sent := [⟨"http://localhost:8000/api/token/", "POST",
              [("Content-Type", "application/json")],
              some [("username", "alice"), ("password", "secret")]⟩],
    timers := [{ fired := false, cleared := true }],
    redirect := none }

/-- The context reached by the refresh POST in the C2 witness run. -/
def c2WitnessCtx : Ctx :=
  { storage := [("access_token", "A1"), ("refresh_token", "R1")],
    counter := 1,
    sent := [⟨"http://localhost:8000/api/token/refresh/", "POST",
              [("Content-Type", "application/json"), ("Authorization", "Bearer A1")],
              some [("refresh", "R1")]⟩],
    timers := [{ fired := false, cleared := true }],
    redirect := none }


/-! ## Basic lemmas about the storage model -/

theorem getItem_cons (p : String × String) (t : Storage) (k : String) :
    getItem (p :: t) k = if p.1 = k then some p.2 else getItem t k := by
  unfold getItem
  simp only [List.find?]
  cases hb : (p.1 == k)
  · rw [if_neg (by simpa using hb)]
  · rw [if_pos (by simpa using hb)]
    rfl

theorem removeItem_cons (p : String × String) (t : Storage) (k : String) :
    removeItem (p :: t) k = if p.1 = k then removeItem t k else p :: removeItem t k := by
  by_cases h : p.1 = k <;> simp [removeItem, List.filter_cons, h]

theorem getItem_removeItem_self (s : Storage) (k : String) :
    getItem (removeItem s k) k = none := by
  induction s with
  | nil => rfl
  | cons p t ih =>
    rw [removeItem_cons]
    by_cases h : p.1 = k
    · rw [if_pos h]; exact ih
    · rw [if_neg h, getItem_cons, if_neg h]; exact ih

theorem getItem_removeItem_ne (s : Storage) (k k' : String) (h : k' ≠ k) :
    getItem (removeItem s k) k' = getItem s k' := by
  induction s with
  | nil => rfl
  | cons p t ih =>
    rw [removeItem_cons, getItem_cons]
    by_cases hk : p.1 = k
    · rw [if_pos hk, if_neg (show p.1 ≠ k' by rw [hk]; exact Ne.symm h)]
      exact ih
    · rw [if_neg hk, getItem_cons]
      by_cases hk' : p.1 = k'
      · rw [if_pos hk', if_pos hk']
      · rw [if_neg hk', if_neg hk']; exact ih

theorem getItem_setItem_self (s : Storage) (k v : String) :
    getItem (setItem s k v) k = some v := by
  show getItem ((k, v) :: removeItem s k) k = some v
  rw [getItem_cons, if_pos rfl]

theorem getItem_setItem_ne (s : Storage) (k k' v : String) (h : k' ≠ k) :
    getItem (setItem s k v) k' = getItem s k' := by
  show getItem ((k, v) :: removeItem s k) k' = getItem s k'
  rw [getItem_cons, if_neg (Ne.symm h)]
  exact getItem_removeItem_ne s k k' h

theorem getItem_logoutCtx_access (c : Ctx) :
    getItem (logoutCtx c).storage "access_token" = none := by
  show getItem (removeItem (removeItem c.storage "access_token") "refresh_token") "access_token" = none
  rw [getItem_removeItem_ne _ _ _ (by decide)]
  exact getItem_removeItem_self _ _

theorem getItem_logoutCtx_refresh (c : Ctx) :
    getItem (logoutCtx c).storage "refresh_token" = none :=
  getItem_removeItem_self _ _

theorem isAuthenticated_logoutCtx (c : Ctx) :
    isAuthenticated (logoutCtx c).storage = false := by
  unfold isAuthenticated
  rw [getItem_logoutCtx_access]
  rfl

/-! ## Reduction lemmas for one network exchange -/

theorem doFetch_timeout (env : Env) (c : Ctx) (url method : String)
    (body : Option (List (String × String))) (headers : List (String × String))
    (h : API_CONFIG.TIMEOUT ≤ (env c.counter).duration) :
    doFetch env c url method body headers =
      ({ c with counter := c.counter + 1,
                sent := c.sent ++ [⟨url, method, headers, body⟩],
                timers := c.timers ++ [⟨true, false⟩] },
       .err "AbortError" "The operation was aborted") := by
  unfold doFetch
  rw [if_pos h]

theorem doFetch_response (env : Env) (c : Ctx) (url method : String)
    (body : Option (List (String × String))) (headers : List (String × String))
    (s : Nat) (b : Option JsonBody)
    (h : (env c.counter).duration < API_CONFIG.TIMEOUT)
    (hr : (env c.counter).result = .response s b) :
    doFetch env c url method body headers =
      ({ c with counter := c.counter + 1,
                sent := c.sent ++ [⟨url, method, headers, body⟩],
                timers := c.timers ++ [⟨false, true⟩] },
       .ok s b) := by
  unfold doFetch
  rw [if_neg (not_le.mpr h), hr]

theorem doFetch_reject (env : Env) (c : Ctx) (url method : String)
    (body : Option (List (String × String))) (headers : List (String × String))
    (name msg : String)
    (h : (env c.counter).duration < API_CONFIG.TIMEOUT)
    (hr : (env c.counter).result = .networkError name msg) :
    doFetch env c url method body headers =
      ({ c with counter := c.counter + 1,
                sent := c.sent ++ [⟨url, method, headers, body⟩],
                timers := c.timers ++ [⟨false, false⟩] },
       .err name msg) := by
  unfold doFetch
  rw [if_neg (not_le.mpr h), hr]

theorem doFetch_fst_sent (env : Env) (c : Ctx) (url method : String)
    (body : Option (List (String × String))) (headers : List (String × String)) :
    ((doFetch env c url method body headers).1).sent = c.sent ++ [⟨url, method, headers, body⟩] := by
  unfold doFetch
  split
  · rfl
  · split <;> rfl

theorem doFetch_fst_storage (env : Env) (c : Ctx) (url method : String)
    (body : Option (List (String × String))) (headers : List (String × String)) :
    ((doFetch env c url method body headers).1).storage = c.storage := by
  unfold doFetch
  split
  · rfl
  · split <;> rfl

theorem finishResp_fst (c : Ctx) (s : Nat) (b : Option JsonBody) :
    (finishResp c s b).1 = c := by
  unfold finishResp
  split <;> rfl

theorem finishResp_ok (c : Ctx) (s : Nat) (b : Option JsonBody)
    (h1 : 200 ≤ s) (h2 : s ≤ 299) :
    finishResp c s b = (c, .ok (b.getD emptyBody)) := by
  unfold finishResp
  rw [if_pos ⟨h1, h2⟩]

theorem finishResp_not_ok (c : Ctx) (s : Nat) (b : Option JsonBody)
    (h : ¬(200 ≤ s ∧ s ≤ 299)) :
    finishResp c s b = (c, .error (errMessage (b.getD emptyBody) s)) := by
  unfold finishResp
  rw [if_neg h]

/-- `request` when the timer fires first: the in-flight fetch is aborted and
the call throws the timeout message. -/
theorem requestF_timeout (fuel : Nat) (env : Env) (endpoint : String) (opts : Options)
    (c : Ctx) (h : API_CONFIG.TIMEOUT ≤ (env c.counter).duration) :
    requestF (fuel + 1) env endpoint opts c =
      some ({ c with counter := c.counter + 1,
                     sent := c.sent ++ [⟨API_CONFIG.BASE_URL ++ endpoint, opts.method,
                                         buildHeaders c.storage opts, opts.body⟩],
                     timers := c.timers ++ [⟨true, false⟩] },
            .error "La petición tardó demasiado tiempo") := by
  simp only [requestF]
  rw [doFetch_timeout env c _ _ _ _ h]
  rfl

/-- `request` when the fetch rejects before the timer fires. -/
theorem requestF_reject (fuel : Nat) (env : Env) (endpoint : String) (opts : Options)
    (c : Ctx) (name msg : String)
    (h : (env c.counter).duration < API_CONFIG.TIMEOUT)
    (hr : (env c.counter).result = .networkError name msg) :
    requestF (fuel + 1) env endpoint opts c =
      some ({ c with counter := c.counter + 1,
                     sent := c.sent ++ [⟨API_CONFIG.BASE_URL ++ endpoint, opts.method,
                                         buildHeaders c.storage opts, opts.body⟩],
                     timers := c.timers ++ [⟨false, false⟩] },
            .error (if name = "AbortError" then "La petición tardó demasiado tiempo" else msg)) := by
  simp only [requestF]
  rw [doFetch_reject env c _ _ _ _ name msg h hr]

/-- `request` when the fetch resolves and no retry is triggered. -/
theorem requestF_noRetry (fuel : Nat) (env : Env) (endpoint : String) (opts : Options)
    (c : Ctx) (s : Nat) (b : Option JsonBody)
    (h : (env c.counter).duration < API_CONFIG.TIMEOUT)
    (hr : (env c.counter).result = .response s b)
    (hno : (s == 401 && (opts.retry != some false)) = false) :
    requestF (fuel + 1) env endpoint opts c =
      some (finishResp
        { c with counter := c.counter + 1,
                 sent := c.sent ++ [⟨API_CONFIG.BASE_URL ++ endpoint, opts.method,
                                     buildHeaders c.storage opts, opts.body⟩],
                 timers := c.timers ++ [⟨false, true⟩] } s b) := by
  simp only [requestF]
  rw [doFetch_response env c _ _ _ _ s b h hr]
  simp [hno]

/-- `request` when the fetch resolves with a status that triggers the
refresh-and-retry branch. -/
theorem requestF_retry401 (fuel : Nat) (env : Env) (endpoint : String) (opts : Options)
    (c : Ctx) (s : Nat) (b : Option JsonBody)
    (h : (env c.counter).duration < API_CONFIG.TIMEOUT)
    (hr : (env c.counter).result = .response s b)
    (hyes : (s == 401 && (opts.retry != some false)) = true) :
    requestF (fuel + 1) env endpoint opts c =
      match refreshTokenAux (requestF fuel env)
          { c with counter := c.counter + 1,
                   sent := c.sent ++ [⟨API_CONFIG.BASE_URL ++ endpoint, opts.method,
                                       buildHeaders c.storage opts, opts.body⟩],
                   timers := c.timers ++ [⟨false, true⟩] } with
      | none => none
      | some (c2, true) => requestF fuel env endpoint { opts with retry := some false } c2
      | some (c2, false) => some (finishResp c2 s b) := by
  simp only [requestF]
  rw [doFetch_response env c _ _ _ _ s b h hr]
  simp [hyes]

/-- `refreshToken` when a (truthy) refresh token is stored and the POST to
the refresh endpoint does not settle within the available fuel. -/
theorem refreshTokenAux_none
    (req : String → Options → Ctx → Option (Ctx × Except String JsonBody))
    (c : Ctx) (r : String)
    (hr : getItem c.storage "refresh_token" = some r) (hne : r ≠ "")
    (hreq : req API_CONFIG.ENDPOINTS.REFRESH
        { method := "POST", body := some [("refresh", r)] } c = none) :
    refreshTokenAux req c = none := by
  simp [refreshTokenAux, hr, hne, hreq]

/-! ## The `sent` log is append-only -/

theorem refreshTokenAux_sent_mono
    (req : String → Options → Ctx → Option (Ctx × Except String JsonBody))
    (hreq : ∀ ep opts c c' r, req ep opts c = some (c', r) → ∃ ext, c'.sent = c.sent ++ ext) :
    ∀ c c' b, refreshTokenAux req c = some (c', b) → ∃ ext, c'.sent = c.sent ++ ext := by
  intro c c' b h
  unfold refreshTokenAux at h
  split at h
  · cases h
    exact ⟨[], (List.append_nil _).symm⟩
  · split at h
    · cases h
      exact ⟨[], (List.append_nil _).symm⟩
    · split at h
      · cases h
      · rename_i c1 data hres
        split at h
        · split at h
          · cases h
            exact hreq _ _ _ _ _ hres
          · cases h
            obtain ⟨ext, hext⟩ := hreq _ _ _ _ _ hres
            exact ⟨ext, hext⟩
        · cases h
          exact hreq _ _ _ _ _ hres
      · rename_i c1 m hres
        cases h
        obtain ⟨ext, hext⟩ := hreq _ _ _ _ _ hres
        exact ⟨ext, hext⟩

theorem requestF_sent_mono :
    ∀ (fuel : Nat) (env : Env) (ep : String) (opts : Options) (c c' : Ctx)
      (r : Except String JsonBody),
      requestF fuel env ep opts c = some (c', r) → ∃ ext, c'.sent = c.sent ++ ext := by
  intro fuel
  induction fuel with
  | zero => intro env ep opts c c' r h; cases h
  | succ n ih =>
    intro env ep opts c c' r h
    by_cases hto : API_CONFIG.TIMEOUT ≤ (env c.counter).duration
    · rw [requestF_timeout n env ep opts c hto] at h
      cases h
      exact ⟨_, rfl⟩
    · have hlt : (env c.counter).duration < API_CONFIG.TIMEOUT := not_le.mp hto
      cases hres : (env c.counter).result with
      | networkError name msg =>
        rw [requestF_reject n env ep opts c name msg hlt hres] at h
        cases h
        exact ⟨_, rfl⟩
      | response s b =>
        by_cases hcond : (s == 401 && (opts.retry != some false)) = true
        · rw [requestF_retry401 n env ep opts c s b hlt hres hcond] at h
          split at h
          · cases h
          · rename_i c2 haux
            obtain ⟨e2, he2⟩ := refreshTokenAux_sent_mono (requestF n env)
              (fun a b c d e hh => ih env a b c d e hh) _ _ _ haux
            dsimp only at he2
            obtain ⟨e3, he3⟩ := ih env ep _ c2 c' r h
            exact ⟨[⟨API_CONFIG.BASE_URL ++ ep, opts.method, buildHeaders c.storage opts,
                opts.body⟩] ++ e2 ++ e3,
              by rw [he3, he2]; simp only [List.append_assoc]⟩
          · rename_i c2 haux
            injection h with h2
            have hc' : c2 = c' := (finishResp_fst _ s b).symm.trans (congrArg Prod.fst h2)
            obtain ⟨e2, he2⟩ := refreshTokenAux_sent_mono (requestF n env)
              (fun a b c d e hh => ih env a b c d e hh) _ _ _ haux
            dsimp only at he2
            exact ⟨[⟨API_CONFIG.BASE_URL ++ ep, opts.method, buildHeaders c.storage opts,
                opts.body⟩] ++ e2,
              by rw [← hc', he2]; simp only [List.append_assoc]⟩
        · rw [requestF_noRetry n env ep opts c s b hlt hres
            (eq_false_of_ne_true hcond)] at h
          injection h with h2
          have hpre := (finishResp_fst _ s b).symm.trans (congrArg Prod.fst h2)
          have hc' : _ = c' := hpre
          exact ⟨[⟨API_CONFIG.BASE_URL ++ ep, opts.method, buildHeaders c.storage opts,
              opts.body⟩],
            by rw [← hc']⟩

/-- Whatever `request` goes on to do (refresh, retry), the request it sends
first — logged at position `c.sent.length` — carries exactly the headers
built from the storage and options at call time. -/
theorem requestF_first_sent (fuel : Nat) (env : Env) (ep : String) (opts : Options)
    (c c' : Ctx) (r : Except String JsonBody)
    (h : requestF (fuel + 1) env ep opts c = some (c', r)) :
    ∃ ext, c'.sent = c.sent ++ ⟨API_CONFIG.BASE_URL ++ ep, opts.method,
        buildHeaders c.storage opts, opts.body⟩ :: ext := by
  by_cases hto : API_CONFIG.TIMEOUT ≤ (env c.counter).duration
  · rw [requestF_timeout fuel env ep opts c hto] at h
    cases h
    exact ⟨[], rfl⟩
  · have hlt : (env c.counter).duration < API_CONFIG.TIMEOUT := not_le.mp hto
    cases hres : (env c.counter).result with
    | networkError name msg =>
      rw [requestF_reject fuel env ep opts c name msg hlt hres] at h
      cases h
      exact ⟨[], rfl⟩
    | response s b =>
      by_cases hcond : (s == 401 && (opts.retry != some false)) = true
      · rw [requestF_retry401 fuel env ep opts c s b hlt hres hcond] at h
        split at h
        · cases h
        · rename_i c2 haux
          obtain ⟨e2, he2⟩ := refreshTokenAux_sent_mono (requestF fuel env)
            (fun a b c d e hh => requestF_sent_mono fuel env a b c d e hh) _ _ _ haux
          dsimp only at he2
          obtain ⟨e3, he3⟩ := requestF_sent_mono fuel env ep _ c2 c' r h
          refine ⟨e2 ++ e3, ?_⟩
          rw [he3, he2]
          simp only [List.append_assoc, List.singleton_append, List.cons_append, List.nil_append]
        · rename_i c2 haux
          injection h with h2
          have hc' : c2 = c' := (finishResp_fst _ s b).symm.trans (congrArg Prod.fst h2)
          obtain ⟨e2, he2⟩ := refreshTokenAux_sent_mono (requestF fuel env)
            (fun a b c d e hh => requestF_sent_mono fuel env a b c d e hh) _ _ _ haux
          dsimp only at he2
          refine ⟨e2, ?_⟩
          rw [← hc', he2]
          simp only [List.append_assoc, List.singleton_append, List.cons_append, List.nil_append]
      · rw [requestF_noRetry fuel env ep opts c s b hlt hres
          (eq_false_of_ne_true hcond)] at h
        injection h with h2
        have hpre := (finishResp_fst _ s b).symm.trans (congrArg Prod.fst h2)
        have hc' : _ = c' := hpre
        refine ⟨[], ?_⟩
        rw [← hc']

/-! ## Header construction lemmas -/

theorem headerGet_setHeader (l : List (String × String)) (k k' v : String) :
    headerGet (setHeader l k v) k' = if k = k' then some v else headerGet l k' := by
  induction l with
  | nil =>
    show headerGet [(k, v)] k' = _
    show getItem [(k, v)] k' = _
    rw [getItem_cons]
    rfl
  | cons p t ih =>
    show headerGet (if p.1 = k then (k, v) :: t else p :: setHeader t k v) k' = _
    by_cases hpk : p.1 = k
    · rw [if_pos hpk]
      show getItem ((k, v) :: t) k' = _
      rw [getItem_cons]
      by_cases hkk : k = k'
      · rw [if_pos hkk, if_pos hkk]
      · rw [if_neg hkk, if_neg hkk]
        show getItem t k' = getItem (p :: t) k'
        rw [getItem_cons, if_neg (show p.1 ≠ k' from fun hh => hkk (hpk ▸ hh))]
    · rw [if_neg hpk]
      show getItem (p :: setHeader t k v) k' = _
      rw [getItem_cons]
      by_cases hpk' : p.1 = k'
      · have hkk : k ≠ k' := fun hh => hpk (hh ▸ hpk')
        rw [if_pos hpk', if_neg hkk]
        show some p.2 = getItem (p :: t) k'
        rw [getItem_cons, if_pos hpk']
      · rw [if_neg hpk']
        show headerGet (setHeader t k v) k' = _
        rw [ih]
        by_cases hkk : k = k'
        · rw [if_pos hkk, if_pos hkk]
        · rw [if_neg hkk, if_neg hkk]
          show getItem t k' = getItem (p :: t) k'
          rw [getItem_cons, if_neg hpk']

theorem headerGet_eq_none_iff (l : List (String × String)) (k : String) :
    headerGet l k = none ↔ ∀ p ∈ l, p.1 ≠ k := by
  unfold headerGet getItem
  rw [Option.map_eq_none', List.find?_eq_none]
  constructor
  · intro h p hp
    simpa using h p hp
  · intro h p hp
    simpa using h p hp

theorem headerGet_mergeHeaders (base extra : List (String × String)) (k : String)
    (h : ∀ p ∈ extra, p.1 ≠ k) :
    headerGet (mergeHeaders base extra) k = headerGet base k := by
  induction extra generalizing base with
  | nil => rfl
  | cons p t ih =>
    show headerGet (mergeHeaders (setHeader base p.1 p.2) t) k = _
    rw [ih (setHeader base p.1 p.2) (fun q hq => h q (List.mem_cons_of_mem p hq)),
      headerGet_setHeader, if_neg (h p (List.mem_cons_self p t))]

theorem getHeaders_token (s : Storage) (t : String)
    (ht : getItem s "access_token" = some t) (hne : t ≠ "") :
    API_CONFIG.getHeaders s true =
      [("Content-Type", "application/json"), ("Authorization", "Bearer " ++ t)] := by
  simp [API_CONFIG.getHeaders, ht, hne]

theorem getHeaders_no_token (s : Storage) (b : Bool)
    (ht : getItem s "access_token" = none) :
    API_CONFIG.getHeaders s b = [("Content-Type", "application/json")] := by
  cases b
  · rfl
  · simp [API_CONFIG.getHeaders, ht]

/-! ## Claims -/

/-- Against a server that answers 401 to every request (the refresh endpoint
included), any `request` whose `retry` option is not explicitly `false`
re-enters `refreshToken`; `refreshToken`'s own POST to the refresh endpoint
is issued through `request` with `retry` still enabled, so its 401 re-enters
`refreshToken` again, and so on: no amount of fuel makes the run settle. -/
theorem requestF_all401_no_fuel_suffices :
    ∀ (fuel : Nat) (endpoint : String) (opts : Options) (c : Ctx) (r : String),
      getItem c.storage "refresh_token" = some r → r ≠ "" →
      (opts.retry != some false) = true →
      requestF fuel envAll401 endpoint opts c = none := by
  intro fuel
  induction fuel with
  | zero => intro ep opts c r _ _ _; rfl
  | succ n ih =>
    intro ep opts c r hr hne hretry
    rw [requestF_retry401 n envAll401 ep opts c 401 (some emptyBody)
      (by show (0:Nat) < 30000; decide) rfl (by simp [hretry])]
    have haux : refreshTokenAux (requestF n envAll401)
        { c with counter := c.counter + 1,
                 sent := c.sent ++ [⟨API_CONFIG.BASE_URL ++ ep, opts.method,
                                     buildHeaders c.storage opts, opts.body⟩],
                 timers := c.timers ++ [⟨false, true⟩] } = none :=
      refreshTokenAux_none _ _ r hr hne
        (ih API_CONFIG.ENDPOINTS.REFRESH
          { method := "POST", body := some [("refresh", r)] } _ r hr hne rfl)
    rw [haux]

/-- C1: the claim says at most one refresh attempt and one retry happen per
logical call, and that no infinite loop is possible; with the refresh POST
issued with `retry` enabled, a server that answers 401 to the refresh
endpoint as well drives `request` → `refreshToken` → `request`(refresh) →
`refreshToken` → … without bound: the call never settles, however much fuel
it is given.  (The spec's own test scenario — a mock answering 401 to both
the original and the retried request — hits exactly this loop.) -/
theorem c1_refresh_loop_diverges (fuel : Nat) :
    requestF fuel envAll401 "/events/events/" {}
      (ctx0 [("access_token", "EXPIRED"), ("refresh_token", "R1")]) = none :=
  requestF_all401_no_fuel_suffices fuel "/events/events/" {} _ "R1" rfl (by decide) rfl

/-- Witness: even with generous fuel, the all-401 run yields no result. -/
theorem c1_refresh_loop_diverges_witness :
    requestF 9 envAll401 "/events/events/" {}
      (ctx0 [("access_token", "EXPIRED"), ("refresh_token", "R1")]) = none :=
  c1_refresh_loop_diverges 9

/-- C2 counterexample: with an access token stored but no refresh token, the
refresh operation fails (it resolves `false` — the claim's "refresh token
absent" case), yet nothing is cleared: the access token is still stored and
`isAuthenticated()` still returns true afterward. -/
theorem c2_absent_refresh_token_counterexample :
    refreshTokenF 5 envAll400 (ctx0 [("access_token", "A1")]) =
      some (ctx0 [("access_token", "A1")], false) ∧
    isAuthenticated (ctx0 [("access_token", "A1")]).storage = true := by
  exact ⟨rfl, rfl⟩

/-- C2 (amended): when the refresh call itself throws (network error or an
error response from the refresh endpoint), `refreshToken`'s catch runs
`this.logout()`: both tokens are removed and `isAuthenticated()` returns
false afterward.  (When the refresh token is absent, or the refresh response
carries no access token, `refreshToken` merely resolves `false`, leaving the
stored tokens unchanged — see the counterexample.) -/
theorem c2_refresh_throw_clears_session (fuel : Nat) (env : Env) (c c1 : Ctx) (r m : String)
    (hr : getItem c.storage "refresh_token" = some r) (hne : r ≠ "")
    (hreq : requestF fuel env API_CONFIG.ENDPOINTS.REFRESH
        { method := "POST", body := some [("refresh", r)] } c = some (c1, .error m)) :
    refreshTokenF (fuel + 1) env c = some (logoutCtx c1, false) ∧
    isAuthenticated (logoutCtx c1).storage = false ∧
    getItem (logoutCtx c1).storage "access_token" = none ∧
    getItem (logoutCtx c1).storage "refresh_token" = none := by
  refine ⟨?_, isAuthenticated_logoutCtx c1, getItem_logoutCtx_access c1,
    getItem_logoutCtx_refresh c1⟩
  show refreshTokenAux (requestF fuel env) c = some (logoutCtx c1, false)
  simp [refreshTokenAux, hr, hne, hreq]


/-- Witness for C2 against a server answering 400 on the refresh POST. -/
theorem c2_refresh_throw_clears_session_witness :
    refreshTokenF 2 envAll400 (ctx0 [("access_token", "A1"), ("refresh_token", "R1")]) =
      some (logoutCtx c2WitnessCtx, false) ∧
    isAuthenticated (logoutCtx c2WitnessCtx).storage = false ∧
    getItem (logoutCtx c2WitnessCtx).storage "access_token" = none ∧
    getItem (logoutCtx c2WitnessCtx).storage "refresh_token" = none :=
  c2_refresh_throw_clears_session 1 envAll400
    (ctx0 [("access_token", "A1"), ("refresh_token", "R1")]) c2WitnessCtx "R1" "Error 400"
    rfl (by decide) (by rfl)

/-- C3: the claim says the timeout timer is cleared on every completion
path.  The code calls `clearTimeout` only after `await fetch` resolves; when
the fetch rejects (here: an immediate network error, long before the
timeout), the `catch` block rethrows without clearing, and the completed
`request` leaves its timer pending (`fired = false`, `cleared = false`).
Evaluation of the code at the failing input. -/
theorem c3_timer_left_pending_on_network_error :
    requestF 1 envNetError "/health/" {} (ctx0 []) =
      some ({ storage := [], counter := 1,
              sent := [⟨"http://localhost:8000/api/health/", "GET",
                        [("Content-Type", "application/json")], none⟩],
              timers := [{ fired := false, cleared := false }],
              redirect := none },
            .error "Failed to fetch") := by
  rfl

/-- C4: provided the caller did not pass an `Authorization` header of their
own (caller headers take precedence in the merge), the headers `request`
attaches to its outgoing fetch — `buildHeaders`, logged verbatim in the
`sent` entry the call appends at position `c.sent.length` — carry
`Authorization: Bearer <token>` exactly when the `auth` option is not
`false` and a (truthy) access token is stored, and no `Authorization` header
otherwise ("stored" follows the code's truthiness test: an empty stored
string counts as absent). -/
theorem c4_bearer_header (c : Ctx) (opts : Options)
    (hno : headerGet opts.headers "Authorization" = none) :
    ((opts.auth ≠ some false) → ∀ t, getItem c.storage "access_token" = some t → t ≠ "" →
        headerGet (buildHeaders c.storage opts) "Authorization" = some ("Bearer " ++ t)) ∧
    ((opts.auth = some false ∨ getItem c.storage "access_token" = none) →
        headerGet (buildHeaders c.storage opts) "Authorization" = none) ∧
    (∀ (fuel : Nat) (env : Env) (ep : String) (c' : Ctx) (r : Except String JsonBody),
        requestF (fuel + 1) env ep opts c = some (c', r) →
        c'.sent[c.sent.length]? = some ⟨API_CONFIG.BASE_URL ++ ep, opts.method,
            buildHeaders c.storage opts, opts.body⟩) := by
  have hextra : ∀ p ∈ opts.headers, p.1 ≠ "Authorization" :=
    (headerGet_eq_none_iff _ _).mp hno
  refine ⟨?_, ?_, ?_⟩
  · intro hauth t ht htne
    unfold buildHeaders
    rw [headerGet_mergeHeaders _ _ _ hextra,
      show (opts.auth != some false) = true from bne_iff_ne.mpr hauth,
      getHeaders_token c.storage t ht htne]
    rfl
  · intro hdis
    unfold buildHeaders
    rw [headerGet_mergeHeaders _ _ _ hextra]
    cases hdis with
    | inl hfalse =>
      rw [hfalse]
      rfl
    | inr hnone =>
      rw [getHeaders_no_token c.storage _ hnone]
      rfl
  · intro fuel env ep c' r h
    obtain ⟨ext, hext⟩ := requestF_first_sent fuel env ep opts c c' r h
    rw [hext, List.getElem?_append_right (le_refl _)]
    simp

/-- Witness for C4: the bearer header is attached for a stored token, absent
for an empty storage, and logged on the wire for a concrete run. -/
theorem c4_bearer_header_witness :
    headerGet (buildHeaders [("access_token", "A1")] {}) "Authorization" =
      some "Bearer A1" ∧
    headerGet (buildHeaders [] {}) "Authorization" = none ∧
    ({ storage := [("access_token", "A1")], counter := 1,
       sent := [⟨"http://localhost:8000/api/events/events/", "GET",
                 [("Content-Type", "application/json"), ("Authorization", "Bearer A1")],
                 none⟩],
       timers := [{ fired := false, cleared := true }], redirect := none } : Ctx).sent[0]? =
      some ⟨"http://localhost:8000/api/events/events/", "GET",
            buildHeaders [("access_token", "A1")] {}, none⟩ := by
  refine ⟨?_, ?_, ?_⟩
  · exact (c4_bearer_header (ctx0 [("access_token", "A1")]) {} rfl).1 (by decide) "A1" rfl
      (by decide)
  · exact (c4_bearer_header (ctx0 []) {} rfl).2.1 (Or.inr rfl)
  · exact (c4_bearer_header (ctx0 [("access_token", "A1")]) {} rfl).2.2 0 env200BadJson
      "/events/events/" _ (.ok emptyBody) (by rfl)

/-- C5: `request` enforces the configured 30,000 ms timeout: whenever the
network operation would not settle before `API_CONFIG.TIMEOUT`, the armed
timer fires, `controller.abort()` cancels the in-flight fetch (`fired =
true` in the timer log), and the call fails with the timeout-specific
message instead of resolving or hanging (it settles at any fuel). -/
theorem c5_timeout_enforced (fuel : Nat) (env : Env) (endpoint : String) (opts : Options)
    (c : Ctx) (h : API_CONFIG.TIMEOUT ≤ (env c.counter).duration) :
    API_CONFIG.TIMEOUT = 30000 ∧
    requestF (fuel + 1) env endpoint opts c =
      some ({ c with counter := c.counter + 1,
                     sent := c.sent ++ [⟨API_CONFIG.BASE_URL ++ endpoint, opts.method,
                                         buildHeaders c.storage opts, opts.body⟩],
                     timers := c.timers ++ [⟨true, false⟩] },
            .error "La petición tardó demasiado tiempo") :=
  ⟨rfl, requestF_timeout fuel env endpoint opts c h⟩

/-- Witness for C5 at a concrete slow server. -/
theorem c5_timeout_enforced_witness :
    API_CONFIG.TIMEOUT = 30000 ∧
    requestF 3 envSlowServer "/health/" {} (ctx0 []) =
      some ({ storage := [], counter := 1,
              sent := [⟨"http://localhost:8000/api/health/", "GET",
                        [("Content-Type", "application/json")], none⟩],
              timers := [{ fired := true, cleared := false }],
              redirect := none },
            .error "La petición tardó demasiado tiempo") :=
  c5_timeout_enforced 2 envSlowServer "/health/" {} (ctx0 []) (by decide)

/-- C6 counterexample: the claim says a non-success response's error message
is the body's `detail` field whenever it is *present*.  With body
`{"detail": "", "error": "boom"}` the `detail` field is present, yet the
code (`data.detail || data.error || …`, JS falsy `""`) throws `"boom"`. -/
theorem c6_present_empty_detail_counterexample :
    requestF 1 env404DetailEmpty "/x/" {} (ctx0 []) =
      some ({ storage := [], counter := 1,
              sent := [⟨"http://localhost:8000/api/x/", "GET",
                        [("Content-Type", "application/json")], none⟩],
              timers := [{ fired := false, cleared := true }],
              redirect := none },
            .error "boom") ∧
    bodyDetailEmpty.detail = some "" ∧ "boom" ≠ "" := by
  exact ⟨by rfl, rfl, by decide⟩

/-- C6 (amended): on a final non-success status the call fails with
`data.detail` if present and non-empty, else `data.error` if present and
non-empty, else `Error <status>` (JS `||` truthiness). -/
theorem c6_error_message_policy (fuel : Nat) (env : Env) (endpoint : String) (opts : Options)
    (c : Ctx) (s : Nat) (b : Option JsonBody)
    (h1 : (env c.counter).duration < API_CONFIG.TIMEOUT)
    (h2 : (env c.counter).result = .response s b)
    (h3 : ¬(200 ≤ s ∧ s ≤ 299))
    (h4 : (s == 401 && (opts.retry != some false)) = false) :
    requestF (fuel + 1) env endpoint opts c =
      some ({ c with counter := c.counter + 1,
                     sent := c.sent ++ [⟨API_CONFIG.BASE_URL ++ endpoint, opts.method,
                                         buildHeaders c.storage opts, opts.body⟩],
                     timers := c.timers ++ [⟨false, true⟩] },
            .error (errMessage (b.getD emptyBody) s)) ∧
    (∀ (d : JsonBody) (st : Nat) (x : String),
        (d.detail = some x → x ≠ "" → errMessage d st = x) ∧
        (truthy d.detail = false → d.error = some x → x ≠ "" → errMessage d st = x)) ∧
    (∀ (d : JsonBody) (st : Nat), truthy d.detail = false → truthy d.error = false →
        errMessage d st = "Error " ++ toString st) := by
  refine ⟨?_, ?_, ?_⟩
  · rw [requestF_noRetry fuel env endpoint opts c s b h1 h2 h4,
      finishResp_not_ok _ _ _ h3]
  · intro d st x
    constructor
    · intro hd hx
      unfold errMessage jsOr
      rw [hd]
      rw [if_pos (show truthy (some x) = true by simp [truthy, hx])]
      rfl
    · intro hdf he hx
      unfold errMessage jsOr
      rw [if_neg (by simp [hdf]), he,
        if_pos (show truthy (some x) = true by simp [truthy, hx])]
      rfl
  · intro d st hdf hef
    unfold errMessage jsOr
    rw [if_neg (by simp [hdf]), if_neg (by simp [hef])]
    rfl

/-- Witness for C6 at a concrete 503 with an `error`-only body. -/
theorem c6_error_message_policy_witness :
    requestF 1 env503ErrOnly "/x/" {} (ctx0 []) =
      some ({ storage := [], counter := 1,
              sent := [⟨"http://localhost:8000/api/x/", "GET",
                        [("Content-Type", "application/json")], none⟩],
              timers := [{ fired := false, cleared := true }],
              redirect := none },
            .error "service down") :=
  (c6_error_message_policy 0 env503ErrOnly "/x/" {} (ctx0 []) 503 (some bodyErrOnly)
    (by decide) rfl (by decide) (by decide)).1

/-- C7: a success-status response whose body fails to parse as JSON does not
throw: `{}` is substituted and the call resolves with the empty result. -/
theorem c7_malformed_body_resolves_empty (fuel : Nat) (env : Env) (endpoint : String)
    (opts : Options) (c : Ctx) (s : Nat)
    (h1 : (env c.counter).duration < API_CONFIG.TIMEOUT)
    (h2 : (env c.counter).result = .response s none)
    (h3 : 200 ≤ s) (h4 : s ≤ 299) :
    requestF (fuel + 1) env endpoint opts c =
      some ({ c with counter := c.counter + 1,
                     sent := c.sent ++ [⟨API_CONFIG.BASE_URL ++ endpoint, opts.method,
                                         buildHeaders c.storage opts, opts.body⟩],
                     timers := c.timers ++ [⟨false, true⟩] },
            .ok emptyBody) := by
  have hno : (s == 401 && (opts.retry != some false)) = false := by
    have hs : s ≠ 401 := by omega
    simp [hs]
  rw [requestF_noRetry fuel env endpoint opts c s none h1 h2 hno,
    finishResp_ok _ _ _ h3 h4]
  rfl

/-- Witness for C7 at a concrete 200 with a non-JSON body. -/
theorem c7_malformed_body_resolves_empty_witness :
    requestF 1 env200BadJson "/x/" {} (ctx0 []) =
      some ({ storage := [], counter := 1,
              sent := [⟨"http://localhost:8000/api/x/", "GET",
                        [("Content-Type", "application/json")], none⟩],
              timers := [{ fired := false, cleared := true }],
              redirect := none },
            .ok emptyBody) :=
  c7_malformed_body_resolves_empty 0 env200BadJson "/x/" {} (ctx0 []) 200
    (by decide) rfl (by decide) (by decide)

/-- C8 counterexample: `getCurrentUser` is a Feature Caller (the auth
convenience operation for the current-user lookup), yet when its underlying
exchange fails (here: a 500 from the server, second conjunct) it resolves
with `null` — neither a decoded success payload nor a failure carrying a
display-ready message (its catch only logs). -/
theorem c8_getCurrentUser_null_counterexample :
    getCurrentUserF 1 envAll500 (ctx0 []) =
      some ({ storage := [], counter := 1,
              sent := [⟨"http://localhost:8000/api/auth/me/", "GET",
                        [("Content-Type", "application/json")], none⟩],
              timers := [{ fired := false, cleared := true }], redirect := none },
            none) ∧
    getF 1 envAll500 API_CONFIG.ENDPOINTS.ME [] (ctx0 []) =
      some ({ storage := [], counter := 1,
              sent := [⟨"http://localhost:8000/api/auth/me/", "GET",
                        [("Content-Type", "application/json")], none⟩],
              timers := [{ fired := false, cleared := true }], redirect := none },
            .error "Error 500") := by
  exact ⟨rfl, rfl⟩

/-- C8 (amended): every Feature Caller except `getCurrentUser` either
resolves with the decoded success payload or signals the failure together
with the display-ready message of the underlying exchange — `getEvents` (and
the other thin wrappers) propagate the result of `get` unchanged, `login`
resolves `{success: false, error: <message>}`, `healthCheck` resolves
`{status: 'error', message: <message>}`; `getCurrentUser`, however, resolves
with `null` on a failed exchange, discarding the message.  No Feature Caller
reports success when the underlying exchange failed. -/
theorem c8_feature_caller_envelopes (fuel : Nat) (env : Env) (c : Ctx) :
    (∀ params, getEventsF fuel env params c =
        getF fuel env API_CONFIG.ENDPOINTS.EVENTS params c) ∧
    (∀ (u p : String) (c' : Ctx) (m : String),
        postF fuel env API_CONFIG.ENDPOINTS.LOGIN [("username", u), ("password", p)] c =
          some (c', .error m) →
        loginF fuel env u p c = some (c', { success := false, error := some m, data := none })) ∧
    (∀ (c' : Ctx) (m : String),
        getF fuel env API_CONFIG.ENDPOINTS.HEALTH [] c = some (c', .error m) →
        healthCheckF fuel env c = some (c', .errorStatus m)) ∧
    (∀ (c' : Ctx) (d : JsonBody),
        getF fuel env API_CONFIG.ENDPOINTS.HEALTH [] c = some (c', .ok d) →
        healthCheckF fuel env c = some (c', .payload d)) ∧
    (∀ (c' : Ctx) (m : String),
        getF fuel env API_CONFIG.ENDPOINTS.ME [] c = some (c', .error m) →
        getCurrentUserF fuel env c = some (c', none)) := by
  refine ⟨fun params => rfl, ?_, ?_, ?_, ?_⟩
  · intro u p c' m h
    unfold loginF
    rw [h]
  · intro c' m h
    unfold healthCheckF
    rw [h]
  · intro c' d h
    unfold healthCheckF
    rw [h]
  · intro c' m h
    unfold getCurrentUserF
    rw [h]

/-- Witness for C8: `login` and `healthCheck` against a server answering 500
to everything. -/
theorem c8_feature_caller_envelopes_witness :
    loginF 1 envAll500 "u" "p" (ctx0 []) =
      some ({ storage := [], counter := 1,
              sent := [⟨"http://localhost:8000/api/token/", "POST",
                        [("Content-Type", "application/json")],
                        some [("username", "u"), ("password", "p")]⟩],
              timers := [{ fired := false, cleared := true }], redirect := none },
            { success := false, error := some "Error 500", data := none }) ∧
    healthCheckF 1 envAll500 (ctx0 []) =
      some ({ storage := [], counter := 1,
              sent := [⟨"http://localhost:8000/api/health/", "GET",
                        [("Content-Type", "application/json")], none⟩],
              timers := [{ fired := false, cleared := true }], redirect := none },
            .errorStatus "Error 500") := by
  refine ⟨?_, ?_⟩
  · exact (c8_feature_caller_envelopes 1 envAll500 (ctx0 [])).2.1 "u" "p" _ "Error 500" (by rfl)
  · exact (c8_feature_caller_envelopes 1 envAll500 (ctx0 [])).2.2.1 _ "Error 500" (by rfl)

/-- C9: a `login` that reports success (which the code grants exactly when
the server's reply carried a truthy access token) stores that token, so
`isAuthenticated()` returns true immediately afterward; a subsequent
`logout()` removes it, making `isAuthenticated()` return false. -/
theorem c9_login_roundtrip (fuel : Nat) (env : Env) (u p : String) (c c1 : Ctx)
    (res : LoginResult) (hl : loginF fuel env u p c = some (c1, res))
    (hs : res.success = true) :
    isAuthenticated c1.storage = true ∧ isAuthenticated (logoutCtx c1).storage = false := by
  refine ⟨?_, isAuthenticated_logoutCtx c1⟩
  unfold loginF at hl
  split at hl
  · cases hl
  · rename_i c2 data hpost
    split at hl
    · rename_i htr
      cases hl
      cases hacc : data.access with
      | none =>
        rw [hacc] at htr
        exact Bool.noConfusion htr
      | some a =>
        rw [hacc] at htr
        have ha : a ≠ "" := by simpa [truthy] using htr
        unfold isAuthenticated
        dsimp only
        rw [show jsString (some a) = a from rfl,
          getItem_setItem_ne _ _ _ _ (by decide), getItem_setItem_self]
        simpa [truthy] using ha
    · cases hl
      exact Bool.noConfusion hs
  · rename_i c2 m hpost
    cases hl
    exact Bool.noConfusion hs

/-- Witness for C9: a concrete successful login then logout. -/
theorem c9_login_roundtrip_witness :
    isAuthenticated c9WitnessCtx.storage = true ∧
    isAuthenticated (logoutCtx c9WitnessCtx).storage = false :=
  c9_login_roundtrip 1 envLoginOk "alice" "secret" (ctx0 []) c9WitnessCtx
    { success := true, error := none, data := some bodyLoginOk } (by rfl) rfl

/-- C10: `logout` removes exactly the `access_token` and `refresh_token`
keys: both are absent afterward, and every other stored key — in particular
a cached user profile — still yields the value it had before. -/
theorem c10_logout_storage_frame (c : Ctx) (k : String)
    (h1 : k ≠ "access_token") (h2 : k ≠ "refresh_token") :
    getItem (logoutCtx c).storage "access_token" = none ∧
    getItem (logoutCtx c).storage "refresh_token" = none ∧
    getItem (logoutCtx c).storage k = getItem c.storage k := by
  refine ⟨getItem_logoutCtx_access c, getItem_logoutCtx_refresh c, ?_⟩
  show getItem (removeItem (removeItem c.storage "access_token") "refresh_token") k = _
  rw [getItem_removeItem_ne _ _ _ h2, getItem_removeItem_ne _ _ _ h1]

/-- Witness for C10 at a storage holding both tokens and a cached user. -/
theorem c10_logout_storage_frame_witness :
    getItem (logoutCtx (ctx0 [("access_token", "A1"), ("refresh_token", "R1"),
        ("user", "alice")])).storage "access_token" = none ∧
    getItem (logoutCtx (ctx0 [("access_token", "A1"), ("refresh_token", "R1"),
        ("user", "alice")])).storage "refresh_token" = none ∧
    getItem (logoutCtx (ctx0 [("access_token", "A1"), ("refresh_token", "R1"),
        ("user", "alice")])).storage "user" =
      getItem (ctx0 [("access_token", "A1"), ("refresh_token", "R1"),
        ("user", "alice")]).storage "user" :=
  c10_logout_storage_frame
    (ctx0 [("access_token", "A1"), ("refresh_token", "R1"), ("user", "alice")]) "user"
    (by decide) (by decide)

end EventHub
